import Mathlib

/-!
Verification of the authorization-request processing core of the
`oidcendpoint` / `oicsrv` OpenID Connect Provider against its design
specification.  The Python sources embedded here are
`src/oicsrv/oic/authorization.py`, `src/oicsrv/srv_info.py` and
`src/oidcendpoint/endpoint_context.py`.  Python dicts are modelled as
association lists with unique keys, exceptions as explicit sum types,
and the external collaborators (session store, JWT signer,
authentication methods) as parameters recording exactly the data the
source reads from them.
-/

namespace Oicsrv

/-- A parsed query component: name to ordered list of values, as produced
by `urllib.parse.parse_qs`. -/
abbrev QueryMap := List (String × List String)

/-- Dict lookup (`d[k]` / `k in d`): first binding of the key wins, keys
are unique in the Python dicts being modelled. -/
def dictGet {α : Type} (m : List (String × α)) (k : String) : Option α :=
  (m.find? (fun p => p.1 == k)).map (fun p => p.2)

/-- Dict assignment `d[k] = v`: replaces the binding if the key is
present, otherwise appends it. -/
def dictSet {α : Type} (m : List (String × α)) (k : String) (v : α) :
    List (String × α) :=
  if (m.find? (fun p => p.1 == k)).isSome then
    m.map (fun p => if p.1 == k then (k, v) else p)
  else
    m ++ [(k, v)]

/-- Python set equality between two lists of strings (`set(a) == set(b)`). -/
def setEqB (a b : List String) : Bool :=
  a.all (fun x => b.contains x) && b.all (fun x => a.contains x)

/-- A redirect URI after `unquote`/`urlparse`/`splitquery`/`parse_qs`:
base part, optional parsed query component, fragment (empty string when
absent, mirroring `urlparse(...).fragment`). -/
structure RedirectURI where
  base : String
  query : Option QueryMap
  fragment : String
deriving DecidableEq, Repr

/-- The field of an OIDC `claims` request used by `Authorization._acr_claims`:
`request["claims"]["id_token"]["acr"]` is a dict carrying `value`,
`values`, or neither (`otherKeys` also stands for a non-dict value, which
makes `_acr_claims` return `None` as well). -/
inductive AcrDef
  | value (v : String)
  | values (vs : List String)
  | otherKeys
deriving DecidableEq, Repr

/-- The authorization request, with exactly the fields the embedded code
reads.  `Option` marks fields whose absence raises `KeyError` in the
source (caught and treated as "not present"). -/
structure AuthzRequest where
  client_id : String
  response_type : List String
  redirect_uri : Option RedirectURI := none
  state : Option String := none
  scope : Option String := none
  prompt : List String := []
  response_mode : Option String := none
  claims_id_token_acr : Option AcrDef := none
  request_max_age : Option Nat := none
  max_age : Option Nat := none
  upm_answer : Option String := none
deriving DecidableEq, Repr

/-- A client database record, with the fields `authorization.py` reads:
`redirect_uris` (list of `(base, registered query dict or None)` pairs)
and `response_types` (absent when the client registered none). -/
structure ClientInfo where
  redirect_uris : List (String × Option QueryMap) := []
  response_types : Option (List String) := none
deriving DecidableEq, Repr

/-- The client database `srv_info.cdb`, keyed by client id. -/
abbrev ClientDb := List (String × ClientInfo)

/-- `Authorization.verify_response_type` (authorization.py:294-304).
Returns `set(request["response_type"]) not in _registered` where
`_registered` is the client's registered response-type combinations,
each `rt.split(' ')` read as a set, defaulting to `[{'code'}]`. -/
def verify_response_type (request : AuthzRequest) (cinfo : ClientInfo) : Bool :=
  let _registered : List (List String) :=
    match cinfo.response_types with
    | some rts => rts.map (fun rt => rt.splitOn " ")
    | none => [["code"]]
  !(_registered.any (fun r => setEqB r request.response_type))

/-- Python truthiness of the optional query dicts in
`verify_redirect_uri`: `None` and the empty dict are falsy. -/
def truthyQ : Option QueryMap → Bool
  | none => false
  | some m => !m.isEmpty

/-- The assert loops of `verify_redirect_uri`: every `(key, vals)` pair
of `sub` must appear in `sup` (`assert key in sup` then
`for val in vals: assert val in sup[key]`). -/
def containedIn (sub sup : QueryMap) : Bool :=
  sub.all (fun kv =>
    match dictGet sup kv.1 with
    | none => false
    | some ws => kv.2.all (fun v => ws.contains v))

/-- The `for regbase, rquery in ... redirect_uris` loop of
`verify_redirect_uri` (authorization.py:102-123).  `.error ()` stands
for any exception escaping the loop (a failed `assert`, `key in None`,
or the explicit `raise ValueError`); `.ok b` is normal termination with
`match == b`.  A candidate whose base differs is skipped; the first
candidate with an equal base either passes both containment checks
(`match = True; break`) or raises, ending the whole loop. -/
def redirectMatchLoop (uris : List (String × Option QueryMap))
    (base : String) (query : Option QueryMap) : Except Unit Bool :=
  match uris with
  | [] => .ok false
  | (regbase, rquery) :: rest =>
    if base == regbase then
      match (if truthyQ rquery then
               match query with
               | none => Except.error ()
               | some q =>
                 if containedIn (rquery.getD []) q then Except.ok ()
                 else Except.error ()
             else Except.ok ()) with
      | .error _ => .error ()
      | .ok _ =>
        match (if truthyQ query then
                 match rquery with
                 | none => Except.error ()
                 | some rq =>
                   if containedIn (query.getD []) rq then Except.ok ()
                   else Except.error ()
               else Except.ok ()) with
        | .error _ => .error ()
        | .ok _ => .ok true
    else redirectMatchLoop rest base query

/-- Outcome of `verify_redirect_uri`: success (`return None`), or one of
the two exception kinds its `except` clause re-raises. -/
inductive RedirectVerdict
  | ok
  | redirectURIError
  | unknownClient
deriving DecidableEq, Repr

/-- `verify_redirect_uri` (authorization.py:82-144) on a request whose
`redirect_uri` is present and already parsed.  The `try` body fails on a
fragment (`URIError`), on an unknown client (`KeyError` from the `cdb`
lookup), on a loop exception, or when no registered base matches
(`RedirectURIError`); the handler then re-raises `RedirectURIError` when
the client exists and `UnknownClient` otherwise. -/
def verify_redirect_uri (cdb : ClientDb) (client_id : String)
    (uri : RedirectURI) : RedirectVerdict :=
  let inner : Except Unit Unit :=
    if uri.fragment != "" then .error ()
    else
      match dictGet cdb client_id with
      | none => .error ()
      | some cinfo =>
        match redirectMatchLoop cinfo.redirect_uris uri.base uri.query with
        | .error _ => .error ()
        | .ok true => .ok ()
        | .ok false => .error ()
  match inner with
  | .ok _ => .ok
  | .error _ =>
    match dictGet cdb client_id with
    | some _ => .redirectURIError
    | none => .unknownClient

/-- Outcome of `get_redirect_uri` (authorization.py:147-162). -/
inductive GetRedirect
  | ok (uri : RedirectURI)
  | redirectURIError
  | parameterError
  | unknownClient
deriving DecidableEq, Repr

/-- `get_redirect_uri`: verify the request's `redirect_uri` if present,
else raise `ParameterError`. -/
def get_redirect_uri (cdb : ClientDb) (request : AuthzRequest) : GetRedirect :=
  match request.redirect_uri with
  | some uri =>
    match verify_redirect_uri cdb request.client_id uri with
    | .ok => .ok uri
    | .redirectURIError => .redirectURIError
    | .unknownClient => .unknownClient
  | none => .parameterError

/-- Outcome of `Authorization._post_parse_request`: either an
`AuthorizationErrorResponse` (error code and description) or the
admitted request. -/
inductive PPRResult
  | errorResp (err : String) (desc : String)
  | ok (req : AuthzRequest)
deriving DecidableEq, Repr

/-- `Authorization._post_parse_request` (authorization.py:306-348):
reject an unparseable request, an unknown client, a response type for
which `verify_response_type` is falsy, and a bad redirect URI; otherwise
admit the request with its verified `redirect_uri`.  The description of
a redirect failure is `"{}:{}".format(err.__class__.__name__, err)`;
only the class name is modelled. -/
def post_parse_request (cdb : ClientDb) (request : Option AuthzRequest)
    (client_id : String) : PPRResult :=
  match request with
  | none => .errorResp "invalid_request" "Can not parse AuthzRequest"
  | some request =>
    match dictGet cdb client_id with
    | none => .errorResp "unauthorized_client" "unknown client"
    | some cinfo =>
      if !(verify_response_type request cinfo) then
        .errorResp "invalid_request" "Trying to use unregistered response_typ"
      else
        match get_redirect_uri cdb request with
        | .ok uri => .ok { request with redirect_uri := some uri }
        | .redirectURIError => .errorResp "invalid_request" "RedirectURIError"
        | .parameterError => .errorResp "invalid_request" "ParameterError"
        | .unknownClient => .errorResp "invalid_request" "UnknownClient"

/-- Mutual subset containment between a registered query multimap and a
request query multimap, reading an absent component as the empty
multimap — the acceptance condition named by the specification. -/
def mutualContainedB (rq q : Option QueryMap) : Bool :=
  containedIn (rq.getD []) (q.getD []) && containedIn (q.getD []) (rq.getD [])

/-- The redirect-URI acceptance rule exactly as the specification words
it (for comparison with `verify_redirect_uri`): no fragment, and some
registered `(base, query)` pair has an exactly equal base and mutually
contained query multimaps. -/
def spec_redirect_accepts (cinfo : ClientInfo) (uri : RedirectURI) : Bool :=
  (uri.fragment == "") &&
  cinfo.redirect_uris.any (fun p =>
    (uri.base == p.1) && mutualContainedB p.2 uri.query)

/-- The check `verify_redirect_uri` actually performs on the one
candidate whose base matches: both assert loops pass without an
exception. -/
def candidateOK (rquery query : Option QueryMap) : Bool :=
  (if truthyQ rquery then
     match query with
     | none => false
     | some q => containedIn (rquery.getD []) q
   else true)
  &&
  (if truthyQ query then
     match rquery with
     | none => false
     | some rq => containedIn (query.getD []) rq
   else true)

/-- The first registered pair whose base equals the request base — the
only candidate whose query component `verify_redirect_uri` ever
examines. -/
def firstBaseMatch (uris : List (String × Option QueryMap)) (base : String) :
    Option (String × Option QueryMap) :=
  uris.find? (fun p => base == p.1)

theorem firstBaseMatch_cons (hd : String × Option QueryMap)
    (tl : List (String × Option QueryMap)) (base : String) :
    firstBaseMatch (hd :: tl) base =
      (if base == hd.1 then some hd else firstBaseMatch tl base) := by
  cases h : (base == hd.1) <;> simp [firstBaseMatch, List.find?, h]

theorem redirectMatchLoop_head (regbase : String) (rquery : Option QueryMap)
    (tl : List (String × Option QueryMap)) (base : String) (q : Option QueryMap)
    (hb : (base == regbase) = true) :
    redirectMatchLoop ((regbase, rquery) :: tl) base q =
      (if candidateOK rquery q = true then Except.ok true else Except.error ()) := by
  simp only [redirectMatchLoop, hb, if_true, candidateOK]
  rcases rquery with _ | rqm <;> rcases q with _ | qm
  · simp [truthyQ]
  · by_cases he : qm.isEmpty = true <;> simp [truthyQ, he]
  · by_cases he : rqm.isEmpty = true <;> simp [truthyQ, he]
  · by_cases he1 : rqm.isEmpty = true <;>
      by_cases he2 : qm.isEmpty = true <;>
        by_cases hc1 : containedIn rqm qm = true <;>
          by_cases hc2 : containedIn qm rqm = true <;>
            simp [truthyQ, he1, he2, hc1, hc2]

theorem redirectMatchLoop_ok_iff (uris : List (String × Option QueryMap))
    (base : String) (q : Option QueryMap) :
    redirectMatchLoop uris base q = .ok true ↔
      ∃ p, firstBaseMatch uris base = some p ∧ candidateOK p.2 q = true := by
  induction uris with
  | nil => simp [redirectMatchLoop, firstBaseMatch]
  | cons hd tl ih =>
    obtain ⟨regbase, rquery⟩ := hd
    by_cases hb : (base == regbase) = true
    · rw [redirectMatchLoop_head regbase rquery tl base q hb,
        firstBaseMatch_cons]
      by_cases hok : candidateOK rquery q = true <;> simp [hb, hok]
    · rw [firstBaseMatch_cons]
      have hloop : redirectMatchLoop ((regbase, rquery) :: tl) base q =
          redirectMatchLoop tl base q := by
        simp only [redirectMatchLoop]
        simp [hb]
      rw [hloop]
      simp only [hb]
      simp only [Bool.false_eq_true, if_false]
      exact ih

/-- Claim C2 (counterexample): the claim says a candidate failing the
query-containment check leaves later registered candidates to be tried.
Here the second registered pair satisfies exact base equality and mutual
query containment, so the spec rule accepts, yet `verify_redirect_uri`
rejects: the first base-matching candidate's failed check raises out of
the whole loop. -/
theorem C2_counterexample :
    spec_redirect_accepts
        { redirect_uris := [("https://rp.example/cb", some [("a", ["1"])]),
                            ("https://rp.example/cb", some [("a", ["2"])])] }
        ⟨"https://rp.example/cb", some [("a", ["2"])], ""⟩ = true
    ∧ verify_redirect_uri
        [("c1", { redirect_uris := [("https://rp.example/cb", some [("a", ["1"])]),
                                    ("https://rp.example/cb", some [("a", ["2"])])] })]
        "c1" ⟨"https://rp.example/cb", some [("a", ["2"])], ""⟩
      = .redirectURIError := by
  constructor
  · decide
  · decide

/-- Claim C2 (amended): for a client present in the database,
`verify_redirect_uri` rejects any URI with a fragment with
`RedirectURIError`, and accepts exactly when the *first* registered pair
whose base equals the request base exists and passes both
query-containment checks; candidates differing in base are skipped
without effect, but a failed query check on the base-matching candidate
rejects immediately instead of trying later candidates. -/
theorem C2_first_base_match (cdb : ClientDb) (cid : String) (cinfo : ClientInfo)
    (uri : RedirectURI) (hc : dictGet cdb cid = some cinfo) :
    (uri.fragment ≠ "" → verify_redirect_uri cdb cid uri = .redirectURIError)
    ∧ (verify_redirect_uri cdb cid uri = .ok ↔
        uri.fragment = "" ∧
          ∃ p, firstBaseMatch cinfo.redirect_uris uri.base = some p ∧
            candidateOK p.2 uri.query = true) := by
  constructor
  · intro hf
    unfold verify_redirect_uri
    have hf2 : (uri.fragment != "") = true := by
      simpa using hf
    simp [hf2, hc]
  · by_cases hf : uri.fragment = ""
    · have hf2 : (uri.fragment != "") = false := by
        simp [hf]
      unfold verify_redirect_uri
      rw [hf2]
      simp only [Bool.false_eq_true, if_false, hc]
      rcases hloop : redirectMatchLoop cinfo.redirect_uris uri.base uri.query with
        herr | hb
      · simp only []
        constructor
        · intro h
          exact absurd h (by simp [hc])
        · intro ⟨_, p, hp, hpok⟩
          have : redirectMatchLoop cinfo.redirect_uris uri.base uri.query = .ok true :=
            (redirectMatchLoop_ok_iff _ _ _).mpr ⟨p, hp, hpok⟩
          rw [hloop] at this
          exact absurd this (by simp)
      · cases hb with
        | false =>
          constructor
          · intro h
            exact absurd h (by simp [hc])
          · intro ⟨_, p, hp, hpok⟩
            have : redirectMatchLoop cinfo.redirect_uris uri.base uri.query = .ok true :=
              (redirectMatchLoop_ok_iff _ _ _).mpr ⟨p, hp, hpok⟩
            rw [hloop] at this
            exact absurd this (by simp)
        | true =>
          constructor
          · intro _
            refine ⟨hf, ?_⟩
            exact (redirectMatchLoop_ok_iff _ _ _).mp hloop
          · intro _
            rfl
    · have hf2 : (uri.fragment != "") = true := by
        simpa using hf
      unfold verify_redirect_uri
      rw [hf2]
      simp [hc, hf]

/-- Claim C2 (witness for the amended theorem): applied at a client with
one registered base and no registered query, on a matching bare URI. -/
theorem C2_first_base_match_witness :
    verify_redirect_uri [("c1", { redirect_uris := [("https://rp.example/cb", none)] })]
      "c1" ⟨"https://rp.example/cb", none, ""⟩ = .ok := by
  have h := (C2_first_base_match
      [("c1", { redirect_uris := [("https://rp.example/cb", none)] })] "c1"
      { redirect_uris := [("https://rp.example/cb", none)] }
      ⟨"https://rp.example/cb", none, ""⟩ rfl).2
  exact h.mpr ⟨rfl, ("https://rp.example/cb", none), by decide, by decide⟩

/-- Claim C1: request admission at the default registration ({code} when
the client registered no response types).  The requested set {code} *is*
registered, yet `_post_parse_request` rejects it with `invalid_request`,
while the unregistered set {token} passes the response-type check and is
admitted: `verify_response_type` returns `set(...) not in _registered`
but its caller rejects on `not verify_response_type(...)`, inverting the
documented check. -/
theorem C1_response_type_check_inverted :
    post_parse_request
        [("c1", { redirect_uris := [("https://rp.example/cb", none)] })]
        (some { client_id := "c1", response_type := ["code"],
                redirect_uri := some ⟨"https://rp.example/cb", none, ""⟩ }) "c1"
      = .errorResp "invalid_request" "Trying to use unregistered response_typ"
    ∧ post_parse_request
        [("c1", { redirect_uris := [("https://rp.example/cb", none)] })]
        (some { client_id := "c1", response_type := ["token"],
                redirect_uri := some ⟨"https://rp.example/cb", none, ""⟩ }) "c1"
      = .ok { client_id := "c1", response_type := ["token"],
              redirect_uri := some ⟨"https://rp.example/cb", none, ""⟩ } := by
  constructor
  · decide
  · decide

/-- The `FORM_POST` template (authorization.py:35-44) after
`FORM_POST.format(inputs=..., action=...)`. -/
def FORM_POST (action inputsStr : String) : String :=
  "<html>\n  <head>\n    <title>Submit This Form</title>\n  </head>\n" ++
  "  <body onload=\"javascript:document.forms[0].submit()\">\n" ++
  "    <form method=\"post\" action=" ++ action ++ ">\n        " ++
  inputsStr ++ "\n    </form>\n  </body>\n</html>"

/-- `inputs` (authorization.py:47-55): one hidden `<input>` element per
response parameter, joined by newlines. -/
def inputs (form_args : List (String × String)) : String :=
  String.intercalate "\n" (form_args.map (fun nv =>
    "<input type=\"hidden\" name=\"" ++ nv.1 ++ "\" value=\"" ++ nv.2 ++ "\"/>"))

/-- Outcome of `Authorization.response_mode`: the returned kwargs with
`response_args` replaced by the rendered form, a raised
`InvalidRequest`, or a raised `KeyError` when the caller's kwargs lack
`redirect_uri`. -/
inductive RMResult
  | rendered (html : String)
  | invalidRequest (msg : String)
  | keyError
deriving DecidableEq, Repr

/-- `Authorization.response_mode` (authorization.py:485-500).
`redirect_uri` is the optional `kwargs["redirect_uri"]` entry — absent,
its access in the `form_post` branch raises `KeyError`.  Note the
control flow of the source: `fragment` with `fragment_enc` true and
`query` with `fragment_enc` false fall through every guard into
`raise InvalidRequest("Unknown response_mode")`. -/
def response_mode (resp_mode : String) (response_args : List (String × String))
    (redirect_uri : Option String) (fragment_enc : Bool) : RMResult :=
  if resp_mode == "form_post" then
    match redirect_uri with
    | some action => .rendered (FORM_POST action (inputs response_args))
    | none => .keyError
  else if resp_mode == "fragment" && !fragment_enc then
    .invalidRequest "wrong response_mode"
  else if resp_mode == "query" && fragment_enc then
    .invalidRequest "wrong response_mode"
  else
    .invalidRequest "Unknown response_mode"

/-- Claim C3: the claim says `fragment` succeeds whenever
`fragment_enc=true` and `query` succeeds whenever `fragment_enc=false`.
The code has no success branch for either: both allowed combinations
fall through to `raise InvalidRequest("Unknown response_mode")`, shown
here at the response parameters {code=abc, state=s1}; only the
`form_post` rendering (one hidden input per parameter, action equal to
the redirect URI) behaves as claimed. -/
theorem C3_valid_modes_unreachable :
    response_mode "fragment" [("code", "abc"), ("state", "s1")]
        (some "https://rp.example/cb") true
      = .invalidRequest "Unknown response_mode"
    ∧ response_mode "query" [("code", "abc"), ("state", "s1")]
        (some "https://rp.example/cb") false
      = .invalidRequest "Unknown response_mode"
    ∧ response_mode "fragment" [("code", "abc"), ("state", "s1")]
        (some "https://rp.example/cb") false
      = .invalidRequest "wrong response_mode"
    ∧ response_mode "query" [("code", "abc"), ("state", "s1")]
        (some "https://rp.example/cb") true
      = .invalidRequest "wrong response_mode"
    ∧ response_mode "web_message" [("code", "abc"), ("state", "s1")]
        (some "https://rp.example/cb") true
      = .invalidRequest "Unknown response_mode"
    ∧ response_mode "form_post" [("code", "abc"), ("state", "s1")]
        (some "https://rp.example/cb") true
      = .rendered (FORM_POST "https://rp.example/cb"
          ("<input type=\"hidden\" name=\"code\" value=\"abc\"/>\n" ++
           "<input type=\"hidden\" name=\"state\" value=\"s1\"/>")) := by
  refine ⟨by decide, by decide, by decide, by decide, by decide, ?_⟩
  rfl

/-- Outcome of the external `sign_encrypt_id_token` call: the signed
token, or the caught `JWEException`/`NoSuitableSigningKeys`. -/
inductive SignOutcome
  | ok (token : String)
  | signError
deriving DecidableEq, Repr

/-- The data `create_authn_response` reads from its external
collaborators for one session: the previously issued authorization code
(`srv_info.sdb[sid]["code"]`), the dict returned by
`sdb.upgrade_to_token` (values `none` model Python `None`), and the
outcome of `sign_encrypt_id_token`. -/
structure SessionInfo where
  code : String
  upgrade : List (String × Option String) := []
  signResult : SignOutcome := .ok ""
deriving DecidableEq, Repr

/-- The parameter names of the external `oicmsg` `AuthorizationResponse`
message class (`aresp.parameters()`), used only to filter which
`upgrade_to_token` entries are copied into the response.  Modelled from
the external library: the OIDC authorization response parameter list. -/
def arespParameters : List String :=
  ["code", "state", "access_token", "token_type", "expires_in",
   "refresh_token", "scope", "id_token"]

/-- A successful `create_authn_response` result: the response parameter
dict, the `fragment_enc` flag, and the `hargs` hint dict handed to
`sign_encrypt_id_token` (`none` when the signer was not called). -/
structure AuthnRespInfo where
  response_args : List (String × String)
  fragment_enc : Bool
  idTokenHint : Option (List (String × Option String))
deriving DecidableEq, Repr

/-- Outcome of `create_authn_response`: the returned dict, the returned
`AuthorizationErrorResponse` on a signing failure, or the raised
`UnSupported` with the unhandled response types. -/
inductive CARResult
  | ok (info : AuthnRespInfo)
  | errorResp (err desc : String)
  | unSupported (types : List String)
deriving DecidableEq, Repr

/-- The common tail of `create_authn_response` (authorization.py:272-276):
raise `UnSupported` when some member of `rtype` was not handled, else
return the response dict with `fragment_enc`. -/
def finishCAR (aresp : List (String × String)) (handled : List String)
    (hint : Option (List (String × Option String))) (rtype : List String)
    (fragment_enc : Bool) : CARResult :=
  let not_handled := rtype.filter (fun t => !handled.contains t)
  if not_handled.isEmpty then
    .ok { response_args := aresp, fragment_enc := fragment_enc, idTokenHint := hint }
  else
    .unSupported not_handled

/-- `create_authn_response` (authorization.py:188-276).  `rtype` is
`set(request["response_type"])`, modelled as `List.dedup`; the
`response_type == ["none"]` comparison of line 196 is list equality, not
set equality.  The external writes (`sdb.update(sid, code=None)`,
storing the id token back onto the session) are not observed by any
claim and are not recorded. -/
def create_authn_response (request : AuthzRequest) (sess : SessionInfo) :
    CARResult :=
  let aresp0 : List (String × String) :=
    match request.state with
    | some s => [("state", s)]
    | none => []
  if request.response_type == ["none"] then
    .ok { response_args := aresp0, fragment_enc := false, idTokenHint := none }
  else
    let aresp1 :=
      match request.scope with
      | some sc => dictSet aresp0 "scope" sc
      | none => aresp0
    let rtype := request.response_type.dedup
    let fragment_enc := !(rtype.length == 1 && rtype.contains "code")
    let _code : Option String :=
      if request.response_type.contains "code" then some sess.code else none
    let aresp2 :=
      if request.response_type.contains "code" then
        dictSet aresp1 "code" sess.code
      else aresp1
    let handled1 : List String :=
      if request.response_type.contains "code" then ["code"] else []
    let aresp3 :=
      if rtype.contains "token" then
        sess.upgrade.foldl (fun acc kv =>
          match kv.2 with
          | some v =>
            if arespParameters.contains kv.1 then dictSet acc kv.1 v else acc
          | none => acc) aresp2
      else aresp2
    let handled2 :=
      if rtype.contains "token" then handled1 ++ ["token"] else handled1
    let _access_token := dictGet aresp3 "access_token"
    if request.response_type.contains "id_token" then
      let hargs : List (String × Option String) :=
        if ["code", "id_token", "token"].all (fun t => rtype.contains t) then
          [("code", _code), ("access_token", _access_token)]
        else if ["code", "id_token"].all (fun t => rtype.contains t) then
          [("code", _code)]
        else if ["id_token", "token"].all (fun t => rtype.contains t) then
          [("access_token", _access_token)]
        else []
      match sess.signResult with
      | .signError => .errorResp "invalid_request" "Could not sign/encrypt id_token"
      | .ok idt =>
        finishCAR (dictSet aresp3 "id_token" idt) (handled2 ++ ["id_token"])
          (some hargs) rtype fragment_enc
    else
      finishCAR aresp3 handled2 none rtype fragment_enc

theorem setEqB_iff (a b : List String) :
    setEqB a b = true ↔ ∀ x, x ∈ a ↔ x ∈ b := by
  simp only [setEqB, Bool.and_eq_true, List.all_eq_true, List.elem_iff]
  constructor
  · intro ⟨h1, h2⟩ x
    exact ⟨fun hx => h1 x hx, fun hx => h2 x hx⟩
  · intro h
    exact ⟨fun x hx => (h x).mp hx, fun x hx => (h x).mpr hx⟩

theorem nodup_mem_single {l : List String} {a : String} (hnd : l.Nodup)
    (hm : ∀ x, x ∈ l ↔ x = a) : l = [a] := by
  cases l with
  | nil =>
    exact absurd ((hm a).mpr rfl) (by simp)
  | cons y ys =>
    have hy : y = a := (hm y).mp (by simp)
    subst hy
    have hys : ys = [] := by
      cases ys with
      | nil => rfl
      | cons z zs =>
        have hz : z = y := (hm z).mp (by simp)
        subst hz
        exact absurd hnd (by simp)
    rw [hys]

theorem setEqB_single_iff_dedup (l : List String) (a : String) :
    setEqB l [a] = true ↔ l.dedup = [a] := by
  constructor
  · intro h
    have hm := (setEqB_iff l [a]).mp h
    refine nodup_mem_single (List.nodup_dedup l) ?_
    intro x
    rw [List.mem_dedup]
    simpa using hm x
  · intro h
    rw [setEqB_iff]
    intro x
    have := List.mem_dedup (a := x) (l := l)
    rw [h] at this
    simpa using this.symm

theorem dedup_code_cond_iff (l : List String) :
    (l.dedup.length == 1 && l.dedup.contains "code") = true ↔
      l.dedup = ["code"] := by
  constructor
  · intro h
    simp only [Bool.and_eq_true, beq_iff_eq, List.elem_iff] at h
    obtain ⟨h1, h2⟩ := h
    obtain ⟨x, hx⟩ := List.length_eq_one.mp h1
    rw [hx] at h2 ⊢
    simp at h2
    rw [h2]
  · intro h
    rw [h]
    decide

theorem create_ok_fragment (request : AuthzRequest) (sess : SessionInfo)
    (info : AuthnRespInfo)
    (hne : (request.response_type == ["none"]) = false)
    (h : create_authn_response request sess = .ok info) :
    info.fragment_enc
      = !(request.response_type.dedup.length == 1 &&
          request.response_type.dedup.contains "code") := by
  unfold create_authn_response at h
  rw [hne] at h
  simp only [Bool.false_eq_true, if_false, finishCAR] at h
  repeat' split at h
  all_goals cases h
  all_goals rfl

theorem create_ok_none_set (request : AuthzRequest) (sess : SessionInfo)
    (info : AuthnRespInfo)
    (hne : (request.response_type == ["none"]) = false)
    (hset : setEqB request.response_type ["none"] = true) :
    create_authn_response request sess ≠ .ok info := by
  have hdedup : request.response_type.dedup = ["none"] :=
    (setEqB_single_iff_dedup _ _).mp hset
  have hmem : ∀ x, x ∈ request.response_type ↔ x = "none" := by
    intro x
    simpa using (setEqB_iff _ _).mp hset x
  have hcode : request.response_type.contains "code" = false := by
    rw [Bool.eq_false_iff]
    intro hc
    have := (hmem "code").mp (List.elem_iff.mp hc)
    simp at this
  have hid : request.response_type.contains "id_token" = false := by
    rw [Bool.eq_false_iff]
    intro hc
    have := (hmem "id_token").mp (List.elem_iff.mp hc)
    simp at this
  intro h
  unfold create_authn_response at h
  rw [hne] at h
  simp only [Bool.false_eq_true, if_false, hdedup, hcode, hid, finishCAR] at h
  simp at h

/-- Claim C6: for every successful (non-error, non-raising) return of
`create_authn_response`, `fragment_enc` is false exactly when the
requested response-type set, duplicates removed, equals {code} or
{none}; and when that set is {none} the response carries no `code`,
`access_token` or `id_token` parameter. -/
theorem C6_fragment_enc (request : AuthzRequest) (sess : SessionInfo)
    (info : AuthnRespInfo)
    (h : create_authn_response request sess = .ok info) :
    (info.fragment_enc = false ↔
       (setEqB request.response_type ["code"] = true ∨
        setEqB request.response_type ["none"] = true))
    ∧ (setEqB request.response_type ["none"] = true →
        dictGet info.response_args "code" = none ∧
        dictGet info.response_args "access_token" = none ∧
        dictGet info.response_args "id_token" = none) := by
  cases hnone : (request.response_type == ["none"]) with
  | true =>
    have hl : request.response_type = ["none"] := eq_of_beq hnone
    unfold create_authn_response at h
    rw [hnone] at h
    simp only [if_true] at h
    have hinfo : info =
        { response_args :=
            (match request.state with
             | some s => [("state", s)]
             | none => []),
          fragment_enc := false, idTokenHint := none } := by
      cases h
      rfl
    constructor
    · rw [hinfo]
      simp only [true_iff]
      right
      rw [hl]
      decide
    · intro _
      rw [hinfo]
      cases request.state <;> simp [dictGet, List.find?]
  | false =>
    constructor
    · rw [create_ok_fragment request sess info hnone h]
      constructor
      · intro hfrag
        left
        rw [Bool.not_eq_false'] at hfrag
        exact (setEqB_single_iff_dedup _ _).mpr ((dedup_code_cond_iff _).mp hfrag)
      · intro hor
        cases hor with
        | inl hcode =>
          rw [Bool.not_eq_false']
          exact (dedup_code_cond_iff _).mpr ((setEqB_single_iff_dedup _ _).mp hcode)
        | inr hnone2 =>
          exact absurd h (create_ok_none_set request sess info hnone hnone2)
    · intro hnone2
      exact absurd h (create_ok_none_set request sess info hnone hnone2)

/-- Claim C6 (witness): a plain code-flow request with a state. -/
theorem C6_fragment_enc_witness :
    ({ response_args := [("state", "s1"), ("code", "Zcode")],
       fragment_enc := false,
       idTokenHint := none } : AuthnRespInfo).fragment_enc = false := by
  have h := (C6_fragment_enc
      { client_id := "c1", response_type := ["code"], state := some "s1" }
      { code := "Zcode" }
      { response_args := [("state", "s1"), ("code", "Zcode")],
        fragment_enc := false, idTokenHint := none }
      (by decide)).1
  exact h.mpr (Or.inl (by decide))

theorem find?_map_setEntry {α : Type} (m : List (String × α)) (k k2 : String)
    (v : α) (hkk2 : (k == k2) = false) :
    (m.map (fun p => if p.1 == k then (k, v) else p)).find?
        (fun p => p.1 == k2)
      = m.find? (fun p => p.1 == k2) := by
  induction m with
  | nil => rfl
  | cons hd tl ih =>
    by_cases h1 : (hd.1 == k) = true
    · have hd1 : hd.1 = k := eq_of_beq h1
      have hd2 : (hd.1 == k2) = false := by rw [hd1]; exact hkk2
      simp only [List.map_cons, h1, if_true, List.find?, hkk2, hd2]
      exact ih
    · have h1f : (hd.1 == k) = false := by
        cases h : (hd.1 == k) with
        | true => exact absurd h h1
        | false => rfl
      simp only [List.map_cons, h1f, Bool.false_eq_true, if_false, List.find?]
      cases h2 : (hd.1 == k2) with
      | true => rfl
      | false => exact ih

theorem dictGet_dictSet_ne {α : Type} (m : List (String × α)) (k k2 : String)
    (v : α) (hne : k2 ≠ k) :
    dictGet (dictSet m k v) k2 = dictGet m k2 := by
  have hkk2 : (k == k2) = false := beq_eq_false_iff_ne.mpr (fun e => hne e.symm)
  unfold dictGet dictSet
  by_cases hf : ((m.find? (fun p => p.1 == k)).isSome = true)
  · rw [if_pos hf, find?_map_setEntry m k k2 v hkk2]
  · rw [if_neg hf, List.find?_append]
    have hsingle : List.find? (fun p => p.1 == k2) [(k, v)] = none := by
      simp [List.find?, hkk2]
    rw [hsingle]
    cases List.find? (fun p => p.1 == k2) m <;> rfl

theorem contains_dedup (l : List String) (x : String) :
    l.dedup.contains x = l.contains x := by
  by_cases h : x ∈ l
  · have h1 : l.contains x = true := List.elem_iff.mpr h
    have h2 : l.dedup.contains x = true :=
      List.elem_iff.mpr (List.mem_dedup.mpr h)
    rw [h1, h2]
  · have h1 : l.contains x = false := by
      rw [Bool.eq_false_iff]
      exact fun hc => h (List.elem_iff.mp hc)
    have h2 : l.dedup.contains x = false := by
      rw [Bool.eq_false_iff]
      exact fun hc => h (List.mem_dedup.mp (List.elem_iff.mp hc))
    rw [h1, h2]

/-- Claim C9: whenever `id_token` is among the requested response types
and `create_authn_response` succeeds, the signer was called with exactly
one of the four hint shapes, selected by which of `code` and `token`
(hence which of the code and the access token) accompany `id_token`:
both, code only, access token only, or neither; the hinted code is the
session's issued code and the hinted access token is the response's
`access_token` entry. -/
theorem C9_hint_shapes (request : AuthzRequest) (sess : SessionInfo)
    (info : AuthnRespInfo)
    (h : create_authn_response request sess = .ok info)
    (hid : request.response_type.contains "id_token" = true) :
    info.idTokenHint = some
      (if request.response_type.contains "code" &&
          request.response_type.contains "token" then
        [("code", some sess.code),
         ("access_token", dictGet info.response_args "access_token")]
      else if request.response_type.contains "code" then
        [("code", some sess.code)]
      else if request.response_type.contains "token" then
        [("access_token", dictGet info.response_args "access_token")]
      else []) := by
  have hne : (request.response_type == ["none"]) = false := by
    rw [Bool.eq_false_iff]
    intro hb
    have hl : request.response_type = ["none"] := eq_of_beq hb
    rw [hl] at hid
    exact absurd hid (by decide)
  unfold create_authn_response at h
  rw [hne] at h
  simp only [Bool.false_eq_true, if_false, contains_dedup, hid, if_true] at h
  cases hsig : sess.signResult with
  | signError =>
    rw [hsig] at h
    simp only [] at h
    exact absurd h (by simp)
  | ok idt =>
    rw [hsig] at h
    simp only [finishCAR] at h
    cases hcode : request.response_type.contains "code" <;>
      cases htok : request.response_type.contains "token" <;>
        simp only [hcode, htok, Bool.false_eq_true, if_false, if_true,
          List.all_cons, List.all_nil, Bool.and_true, Bool.true_and,
          Bool.false_and, Bool.and_false, Bool.and_self] at h ⊢ <;>
        (repeat' split at h) <;>
        cases h <;>
        first
          | rfl
          | (simp only []
             rw [dictGet_dictSet_ne _ "id_token" "access_token" _ (by decide)])

/-- Claim C9 (witness): the hybrid request `id_token token` with no
code — the hint carries the access token only. -/
theorem C9_hint_shapes_witness :
    ({ response_args := [("access_token", "AT"), ("token_type", "Bearer"),
                         ("id_token", "IDT")],
       fragment_enc := true,
       idTokenHint := some [("access_token", some "AT")] } :
        AuthnRespInfo).idTokenHint
      = some [("access_token", some "AT")] := by
  have h := C9_hint_shapes
    { client_id := "c1", response_type := ["id_token", "token"] }
    { code := "Zcode",
      upgrade := [("access_token", some "AT"), ("token_type", some "Bearer")],
      signResult := .ok "IDT" }
    { response_args := [("access_token", "AT"), ("token_type", "Bearer"),
                        ("id_token", "IDT")],
      fragment_enc := true,
      idTokenHint := some [("access_token", some "AT")] }
    (by decide) (by decide)
  simp only [] at h
  exact h

/-- `response_args` inside the `response_info` dict of `post_authn`:
either the parameter mapping, or — after the `form_post` branch of
`response_mode` replaced it — the rendered HTML string. -/
inductive RespArgsVal
  | params (args : List (String × String))
  | rendered (html : String)
deriving DecidableEq, Repr

/-- The `response_info` dict of `post_authn` after the
`response_info['return_uri'] = redirect_uri` assignment. -/
structure PostAuthnInfo where
  response_args : RespArgsVal
  fragment_enc : Bool
  return_uri : RedirectURI
deriving DecidableEq, Repr

/-- Outcome of `Authorization.post_authn`: an error response, the
response-info dict, or an exception no handler on the path catches
(its Python class name recorded). -/
inductive PostAuthnResult
  | errorResp (err desc : String)
  | ok (info : PostAuthnInfo)
  | uncaught (name : String)
deriving DecidableEq, Repr

/-- `Authorization.post_authn` (authorization.py:502-566).  The
authorization hook and `sdb.update` are assumed to succeed;
`revoked` is `sdb.is_session_revoked(sid)`; the default `aresp_check`
returns `""` (never an error) and `make_headers` only produces headers,
so both are omitted.  When `response_mode` is in the request, the method
is called as `self.response_mode(request, **response_info)` where
`response_info` holds the keys `response_args`, `fragment_enc` and
`return_uri` — so its `kwargs["redirect_uri"]` lookup receives `none`
and its `try` only catches `InvalidRequest`, letting a `KeyError`
escape.  An `UnknownClient` from the second `get_redirect_uri` call is
likewise not in the `except` clause and escapes. -/
def post_authn (cdb : ClientDb) (request : AuthzRequest) (sess : SessionInfo)
    (revoked : Bool) : PostAuthnResult :=
  if revoked then .errorResp "access_denied" "Session is revoked"
  else
    match create_authn_response request sess with
    | .unSupported ts =>
      .errorResp "unsupported_response_type" (String.intercalate " " ts)
    | .errorResp e d => .errorResp e d
    | .ok car =>
      match get_redirect_uri cdb request with
      | .redirectURIError => .errorResp "invalid_request" "RedirectURIError"
      | .parameterError => .errorResp "invalid_request" "ParameterError"
      | .unknownClient => .uncaught "UnknownClient"
      | .ok uri =>
        match request.response_mode with
        | some rm =>
          match response_mode rm car.response_args none car.fragment_enc with
          | .rendered html =>
            .ok { response_args := .rendered html,
                  fragment_enc := car.fragment_enc, return_uri := uri }
          | .invalidRequest msg => .errorResp "invalid_request" msg
          | .keyError => .uncaught "KeyError"
        | none =>
          .ok { response_args := .params car.response_args,
                fragment_enc := car.fragment_enc, return_uri := uri }

/-- Outcome of `Authorization.authz_part2`. -/
inductive Authz2Result
  | errorResp (err desc : String)
  | ok (info : PostAuthnInfo)
  | uncaught (name : String)
deriving DecidableEq, Repr

/-- `Authorization.authz_part2` (authorization.py:568-587): pass error
responses through, then perform the mix-up mitigation
`resp_info['response_args']['iss'] = srv_info.issuer` and
`resp_info['response_args']['client_id'] = request['client_id']`.  When
`response_args` was replaced by the rendered `form_post` string, item
assignment on a `str` raises `TypeError`. -/
def authz_part2 (issuer : String) (cdb : ClientDb) (request : AuthzRequest)
    (sess : SessionInfo) (revoked : Bool) : Authz2Result :=
  match post_authn cdb request sess revoked with
  | .errorResp e d => .errorResp e d
  | .uncaught n => .uncaught n
  | .ok info =>
    match info.response_args with
    | .params args =>
      .ok { info with
            response_args :=
              .params (dictSet (dictSet args "iss" issuer)
                "client_id" request.client_id) }
    | .rendered _ => .uncaught "TypeError"

/-- An identity dict returned by an authentication method's
`authenticated_as` (`uid` plus the optional `salt`, defaulted to `""`
when absent as `identity.get('salt', '')` does). -/
structure Identity where
  uid : String
  salt : String := ""
deriving DecidableEq, Repr

/-- Outcome of `authn.authenticated_as`: a normal return of
`(identity-or-None, timestamp)`, or one of the three exception kinds
`setup_auth` catches and downgrades to "no identity". -/
inductive AuthnOutcome
  | ok (identity : Option Identity) (ts : Nat)
  | noSuchAuthentication
  | tamperAllert
  | tooOld
deriving DecidableEq, Repr

/-- An authentication method as `setup_auth` observes it:
`authenticated_as` is a function of the effective `max_age` the method
is given (cookie and authorization header held fixed), and `done` is
the result of `authn.done(request)`. -/
structure AuthnMethodModel where
  authenticated_as : Nat → AuthnOutcome
  done : Bool

/-- `max_age` (authorization.py:58-65): the nested
`request["request"]["max_age"]`, else the top-level `max_age`, else 0. -/
def max_age (request : AuthzRequest) : Nat :=
  match request.request_max_age with
  | some m => m
  | none =>
    match request.max_age with
    | some m => m
    | none => 0

/-- `re_authenticate` (authorization.py:68-73). -/
def re_authenticate (request : AuthzRequest) (done : Bool) : Bool :=
  request.prompt.contains "login" && done

/-- `AuthnEvent` as constructed at authorization.py:476-478. -/
structure AuthnEvent where
  uid : String
  salt : String
  authn_info : String
  time_stamp : Nat
deriving DecidableEq, Repr

/-- Outcome of `Authorization.setup_auth`: an
`AuthorizationErrorResponse`, a suspension (`{'function': authn,
'args': authn_args}` — the caller will run the authenticator), or an
established identity. -/
inductive SetupAuthResult
  | errorResp (err : String)
  | suspend
  | authenticated (authn_event : AuthnEvent) (user : String)
deriving DecidableEq, Repr

/-- `Authorization.setup_auth` (authorization.py:406-480), for a request
on which `pick_authn_method` produced the method `authn` with ACR
reference `authn_class_ref`.  `sids_by_sub` is
`sdb.get_sids_by_sub` and `event_uid sid` is
`sdb.get_authentication_event(sid).uid`; `req_user` is the optional
`kwargs["req_user"]`.  `upm_answer == "true"` forces the effective
max age to 0; the three recognized `authenticated_as` failures all
leave `identity = None` and `_ts = 0`. -/
def setup_auth (request : AuthzRequest) (authn : AuthnMethodModel)
    (authn_class_ref : String) (req_user : Option String)
    (sids_by_sub : String → List String) (event_uid : String → String) :
    SetupAuthResult :=
  let _max_age := if request.upm_answer == some "true" then 0 else max_age request
  let idts : Option Identity × Nat :=
    match authn.authenticated_as _max_age with
    | .ok i t => (i, t)
    | _ => (none, 0)
  match idts.1 with
  | none =>
    if request.prompt.contains "none" then .errorResp "login_required"
    else .suspend
  | some ident =>
    if re_authenticate request authn.done then .suspend
    else
      let user := ident.uid
      match req_user with
      | some ru =>
        match (sids_by_sub ru).getLast? with
        | some lastSid =>
          if user != event_uid lastSid then
            if request.prompt.contains "none" then .errorResp "login_required"
            else .suspend
          else
            .authenticated ⟨ident.uid, ident.salt, authn_class_ref, idts.2⟩ user
        | none =>
          .authenticated ⟨ident.uid, ident.salt, authn_class_ref, idts.2⟩ user
      | none =>
        .authenticated ⟨ident.uid, ident.salt, authn_class_ref, idts.2⟩ user

/-- Outcome of `Authorization.process_request`: an error response, a
suspension into the authenticator, the `authz_part2` result, or an
uncaught exception. -/
inductive ProcessResult
  | errorResp (err : String)
  | suspended
  | response (r : Authz2Result)
  | uncaught (name : String)
deriving DecidableEq, Repr

/-- `Authorization.process_request` (authorization.py:589-622), paired
with a flag recording whether `setup_session` ran (the only place a
session is created).  The `cdb[_cid]` and `request["redirect_uri"]`
accesses raise `KeyError` when absent; an error from `setup_auth` is
returned as-is; a suspension runs `info['function']` (no session); only
the already-authenticated branch creates the session and runs
`authz_part2`. -/
def process_request (issuer : String) (cdb : ClientDb) (request : AuthzRequest)
    (authn : AuthnMethodModel) (authn_class_ref : String)
    (req_user : Option String) (sids_by_sub : String → List String)
    (event_uid : String → String) (sess : SessionInfo) (revoked : Bool) :
    ProcessResult × Bool :=
  match dictGet cdb request.client_id with
  | none => (.uncaught "KeyError", false)
  | some _ =>
    match request.redirect_uri with
    | none => (.uncaught "KeyError", false)
    | some _ =>
      match setup_auth request authn authn_class_ref req_user sids_by_sub
          event_uid with
      | .errorResp e => (.errorResp e, false)
      | .suspend => (.suspended, false)
      | .authenticated _ _ =>
        (.response (authz_part2 issuer cdb request sess revoked), true)

/-- Claim C4: the claim says every non-error delivery carries `iss` and
`client_id`, including under `response_mode=form_post`.  Without a
declared response mode the mitigation does run (second conjunct), but a
`form_post` request never reaches it: `post_authn` calls
`self.response_mode(request, **response_info)` whose kwargs have no
`redirect_uri` entry, so the `form_post` branch raises an uncaught
`KeyError` (and had the kwarg been present, `response_args` would by
then be the rendered HTML string, on which the later
`resp_info['response_args']['iss'] = ...` item assignment raises
`TypeError`). -/
theorem C4_mixup_formpost_crash :
    authz_part2 "https://op.example"
        [("c1", { redirect_uris := [("https://rp.example/cb", none)] })]
        { client_id := "c1", response_type := ["code"],
          redirect_uri := some ⟨"https://rp.example/cb", none, ""⟩,
          state := some "s1", response_mode := some "form_post" }
        { code := "abc" } false
      = .uncaught "KeyError"
    ∧ authz_part2 "https://op.example"
        [("c1", { redirect_uris := [("https://rp.example/cb", none)] })]
        { client_id := "c1", response_type := ["code"],
          redirect_uri := some ⟨"https://rp.example/cb", none, ""⟩,
          state := some "s1" }
        { code := "abc" } false
      = .ok { response_args :=
                .params [("state", "s1"), ("code", "abc"),
                         ("iss", "https://op.example"), ("client_id", "c1")],
              fragment_enc := false,
              return_uri := ⟨"https://rp.example/cb", none, ""⟩ } := by
  constructor
  · decide
  · decide

/-- The claim hypothesis "the chosen authentication method yields no
existing identity": whatever effective max age it is queried with,
`authenticated_as` returns no identity or raises one of the downgraded
failures. -/
def yieldsNoIdentity : AuthnOutcome → Bool
  | .ok (some _) _ => false
  | .ok none _ => true
  | .noSuchAuthentication => true
  | .tamperAllert => true
  | .tooOld => true

/-- Claim C8: a request whose `prompt` contains `none`, handled by a
method yielding no existing identity, ends in the `login_required`
error and creates no session (the session flag stays false: only the
already-authenticated branch of `process_request` calls
`setup_session`). -/
theorem C8_prompt_none_no_session (issuer : String) (cdb : ClientDb)
    (request : AuthzRequest) (authn : AuthnMethodModel)
    (authn_class_ref : String) (req_user : Option String)
    (sids_by_sub : String → List String) (event_uid : String → String)
    (sess : SessionInfo) (revoked : Bool) (cinfo : ClientInfo)
    (uri : RedirectURI)
    (hcli : dictGet cdb request.client_id = some cinfo)
    (huri : request.redirect_uri = some uri)
    (hprompt : request.prompt.contains "none" = true)
    (hnoid : ∀ ma, yieldsNoIdentity (authn.authenticated_as ma) = true) :
    process_request issuer cdb request authn authn_class_ref req_user
        sids_by_sub event_uid sess revoked
      = (.errorResp "login_required", false) := by
  have hsetup : setup_auth request authn authn_class_ref req_user sids_by_sub
      event_uid = .errorResp "login_required" := by
    unfold setup_auth
    have hm := hnoid
      (if request.upm_answer == some "true" then 0 else max_age request)
    cases ho : authn.authenticated_as
        (if request.upm_answer == some "true" then 0 else max_age request) with
    | ok i t =>
      rw [ho] at hm
      cases i with
      | some ident => exact absurd hm (by simp [yieldsNoIdentity])
      | none => simp only [ho, hprompt, if_true]
    | noSuchAuthentication => simp only [ho, hprompt, if_true]
    | tamperAllert => simp only [ho, hprompt, if_true]
    | tooOld => simp only [ho, hprompt, if_true]
  unfold process_request
  rw [hcli, huri, hsetup]

/-- Claim C8 (witness): a `prompt=none` request, an empty cookie state
(the method finds no authentication). -/
theorem C8_prompt_none_no_session_witness :
    process_request "https://op.example"
        [("c1", { redirect_uris := [("https://rp.example/cb", none)] })]
        { client_id := "c1", response_type := ["code"],
          redirect_uri := some ⟨"https://rp.example/cb", none, ""⟩,
          prompt := ["none"] }
        { authenticated_as := fun _ => .ok none 0, done := false }
        "loa1" none (fun _ => []) (fun _ => "") { code := "abc" } false
      = (.errorResp "login_required", false) := by
  exact C8_prompt_none_no_session "https://op.example"
    [("c1", { redirect_uris := [("https://rp.example/cb", none)] })]
    { client_id := "c1", response_type := ["code"],
      redirect_uri := some ⟨"https://rp.example/cb", none, ""⟩,
      prompt := ["none"] }
    { authenticated_as := fun _ => .ok none 0, done := false }
    "loa1" none (fun _ => []) (fun _ => "") { code := "abc" } false
    { redirect_uris := [("https://rp.example/cb", none)] }
    ⟨"https://rp.example/cb", none, ""⟩
    (by decide) rfl (by decide) (fun _ => rfl)

/-- Modelled from the spec: the `AuthnBroker` of
`oicsrv.user_authn.authn_context` (not under src/), an "ordered
collection of (AuthenticationMethod, acr, level) tuples"; a method is
identified here by an opaque string and levels play no role in "exact"
lookup. -/
structure AuthnBroker where
  methods : List (String × String)

/-- Modelled from the spec: `broker.pick(acr, "exact")`, which "returns
only a method whose acr equals the requested value" — every registered
`(method, acr-reference)` pair whose acr equals the requested one, in
registration order. -/
def AuthnBroker.pick_exact (b : AuthnBroker) (acr : String) :
    List (String × String) :=
  (b.methods.filter (fun m => m.1 == acr)).map (fun m => (m.2, m.1))

/-- `Authorization._acr_claims` (authorization.py:350-366): the
requested acr values from `request["claims"]["id_token"]["acr"]` — the
singleton of `value`, or the `values` list, else `None`. -/
def acr_claims (request : AuthzRequest) : Option (List String) :=
  match request.claims_id_token_acr with
  | none => none
  | some (.value v) => some [v]
  | some (.values vs) => some vs
  | some .otherKeys => none

/-- The `for acr in acrs` loop of `pick_authn_method`
(authorization.py:380-387): try each candidate acr with "exact", take
`res[0]` of the first non-empty result. -/
def pickLoop (broker : AuthnBroker) : List String → Option (String × String)
  | [] => none
  | acr :: rest =>
    match broker.pick_exact acr with
    | [] => pickLoop broker rest
    | r :: _ => some r

/-- Outcome of `Authorization.pick_authn_method`. -/
inductive PickResult
  | errorResp (err : String)
  | ok (authn : String) (acr : String)
deriving DecidableEq, Repr

/-- `Authorization.pick_authn_method` (authorization.py:368-404).
`pick_auth` stands for the spec-modelled `pick_auth(srv_info, request,
mode)` fallback chain (also not under src/), consulted with modes `""`,
`"better"`, `"any"` only when the request carries no (non-empty) acr
values claim (`if acrs:`). -/
def pick_authn_method (broker : AuthnBroker)
    (pick_auth : String → Option (String × String)) (request : AuthzRequest) :
    PickResult :=
  let tup : Option (String × String) :=
    match acr_claims request with
    | some (a :: rest) => pickLoop broker (a :: rest)
    | _ =>
      match pick_auth "" with
      | some t => some t
      | none =>
        match pick_auth "better" with
        | some t => some t
        | none => pick_auth "any"
  match tup with
  | none => .errorResp "access_denied"
  | some t => .ok t.1 t.2

theorem pickLoop_eq_findSome (broker : AuthnBroker) (l : List String) :
    pickLoop broker l = l.findSome? (fun acr => (broker.pick_exact acr).head?) := by
  induction l with
  | nil => rfl
  | cons a rest ih =>
    rw [List.findSome?_cons]
    cases hp : broker.pick_exact a with
    | nil => simp only [pickLoop, hp, List.head?]; exact ih
    | cons r rs => simp only [pickLoop, hp, List.head?]

/-- Claim C5: when the request carries a non-empty acr values claim,
the chosen method is the first "exact" broker hit in the order the
request gives the candidate acrs (`List.findSome?`), and the request
ends in `access_denied` when no candidate hits; moreover "exact" lookup
only ever returns registered methods whose acr equals the candidate. -/
theorem C5_acr_exact_order (broker : AuthnBroker)
    (pick_auth : String → Option (String × String)) (request : AuthzRequest)
    (acrs : List String) (hacr : acr_claims request = some acrs)
    (hne : acrs ≠ []) :
    (pick_authn_method broker pick_auth request
      = match acrs.findSome? (fun acr => (broker.pick_exact acr).head?) with
        | some t => .ok t.1 t.2
        | none => .errorResp "access_denied")
    ∧ (∀ acr m r, (m, r) ∈ broker.pick_exact acr →
        r = acr ∧ (acr, m) ∈ broker.methods) := by
  constructor
  · unfold pick_authn_method
    rw [hacr]
    cases acrs with
    | nil => exact absurd rfl hne
    | cons a rest =>
      simp only [pickLoop_eq_findSome]
      cases (a :: rest).findSome? (fun acr => (broker.pick_exact acr).head?) with
      | none => rfl
      | some t => rfl
  · intro acr m r hmem
    unfold AuthnBroker.pick_exact at hmem
    rw [List.mem_map] at hmem
    obtain ⟨p, hp, he⟩ := hmem
    rw [List.mem_filter] at hp
    obtain ⟨hpm, hpe⟩ := hp
    have h1 : p.1 = acr := eq_of_beq hpe
    have h2 : p.2 = m := congrArg Prod.fst he
    have h3 : p.1 = r := congrArg Prod.snd he
    constructor
    · rw [← h3, h1]
    · rw [← h1, ← h2]
      exact hpm

/-- Claim C5 (witness): candidates [loa3, loa2] against a broker with
loa1 and loa2 registered — loa3 misses, loa2 hits. -/
theorem C5_acr_exact_order_witness :
    pick_authn_method ⟨[("loa1", "m1"), ("loa2", "m2")]⟩ (fun _ => none)
        { client_id := "c1", response_type := ["code"],
          claims_id_token_acr := some (.values ["loa3", "loa2"]) }
      = .ok "m2" "loa2" := by
  have h := (C5_acr_exact_order ⟨[("loa1", "m1"), ("loa2", "m2")]⟩
    (fun _ => none)
    { client_id := "c1", response_type := ["code"],
      claims_id_token_acr := some (.values ["loa3", "loa2"]) }
    ["loa3", "loa2"] rfl (by decide)).1
  exact h.trans (by decide)

/-- A provider-metadata / capability value: the three Python value
kinds the negotiation loop distinguishes with `isinstance`. -/
inductive CVal
  | b (x : Bool)
  | s (x : String)
  | l (xs : List String)
deriving DecidableEq, Repr

/-- A provider-info or `not_supported` dict. -/
abbrev PInfo := List (String × CVal)

/-- Python `set(val)` (or `{val}` for a `str`) as the loop builds `sv`;
`set()` of a bool raises `TypeError`. -/
def cvalSet : CVal → Except Unit (List String)
  | .s x => .ok [x]
  | .l xs => .ok xs.dedup
  | .b _ => .error ()

/-- One iteration of the `for key, val in capabilities.items()` loop of
`create_providerinfo` (endpoint_context.py:260-286, srv_info.py:201-227;
the two files carry the identical loop), acting on the pair
`(pinfo, not_supported)`.  A key absent from the packaged defaults is
copied verbatim; a bool default only rejects enabling an unsupported
(`False`) capability; a string default must match exactly; a list
default checks `(sv & sa) == sv` and either advertises `list(sv)` or
collects `list(sv - sa)`. -/
def capStep (acc : PInfo × PInfo) (kv : String × CVal) :
    Except Unit (PInfo × PInfo) :=
  match dictGet acc.1 kv.1 with
  | none => .ok (dictSet acc.1 kv.1 kv.2, acc.2)
  | some (.b allowed) =>
    if allowed == false then
      if kv.2 == .b true then .ok (acc.1, dictSet acc.2 kv.1 (.b true))
      else .ok (acc.1, acc.2)
    else .ok (dictSet acc.1 kv.1 kv.2, acc.2)
  | some (.s allowed) =>
    if kv.2 == .s allowed then .ok (acc.1, acc.2)
    else .ok (acc.1, dictSet acc.2 kv.1 kv.2)
  | some (.l allowed) =>
    match cvalSet kv.2 with
    | .error _ => .error ()
    | .ok sv =>
      if sv.all (fun x => allowed.contains x) then
        .ok (dictSet acc.1 kv.1 (.l sv), acc.2)
      else
        .ok (acc.1,
          dictSet acc.2 kv.1 (.l (sv.filter (fun x => !allowed.contains x))))

/-- The whole capability loop; an exception from a step propagates. -/
def capLoop (acc : PInfo × PInfo) : List (String × CVal) →
    Except Unit (PInfo × PInfo)
  | [] => .ok acc
  | kv :: rest =>
    match capStep acc kv with
    | .error e => .error e
    | .ok acc2 => capLoop acc2 rest

/-- Outcome of `create_providerinfo`: the provider metadata, the raised
startup `ConfigurationError` carrying `not_supported`, or a `TypeError`
from `set()` of a non-iterable configured value. -/
inductive PIResult
  | ok (pinfo : PInfo)
  | configurationError (not_supported : PInfo)
  | typeError
deriving DecidableEq, Repr

/-- The post-loop steps of `create_providerinfo`: add `jwks_uri` when
configured (together with a keyjar), then one `{name}_endpoint` entry
per endpoint. -/
def postProcess (pinfo : PInfo) (jwks_uri : Option String)
    (endpoints : List (String × String)) : PInfo :=
  let p1 :=
    match jwks_uri with
    | some j => dictSet pinfo "jwks_uri" (.s j)
    | none => pinfo
  endpoints.foldl (fun m ep => dictSet m (ep.1 ++ "_endpoint") (.s ep.2)) p1

/-- `create_providerinfo` (endpoint_context.py:250-302,
srv_info.py:191-246): run the merge loop over the configured
capabilities, raise `ConfigurationError` when `not_supported` is
non-empty, then run the post-loop steps.  `packaged` is the
`package_capabilities()` output, whose construction reads only external
constant tables; `endpoints` are the name/path pairs of the two
variants' final loops. -/
def create_providerinfo (packaged : PInfo) (capabilities : List (String × CVal))
    (jwks_uri : Option String) (endpoints : List (String × String)) : PIResult :=
  match capLoop (packaged, []) capabilities with
  | .error _ => .typeError
  | .ok acc =>
    if !acc.2.isEmpty then .configurationError acc.2
    else .ok (postProcess acc.1 jwks_uri endpoints)

theorem find?_map_setEntry_self {α : Type} (m : List (String × α)) (k : String)
    (v : α) :
    (m.map (fun p => if p.1 == k then (k, v) else p)).find?
        (fun p => p.1 == k)
      = (m.find? (fun p => p.1 == k)).map (fun _ => (k, v)) := by
  induction m with
  | nil => rfl
  | cons hd tl ih =>
    by_cases h1 : (hd.1 == k) = true
    · simp only [List.map_cons, h1, if_true, List.find?]
      have hk : (k == k) = true := beq_self_eq_true k
      simp only [hk]
      rfl
    · have h1f : (hd.1 == k) = false := by
        cases h : (hd.1 == k) with
        | true => exact absurd h h1
        | false => rfl
      simp only [List.map_cons, h1f, Bool.false_eq_true, if_false, List.find?]
      exact ih

theorem dictGet_dictSet_self {α : Type} (m : List (String × α)) (k : String)
    (v : α) : dictGet (dictSet m k v) k = some v := by
  unfold dictGet dictSet
  by_cases hf : ((m.find? (fun p => p.1 == k)).isSome = true)
  · rw [if_pos hf, find?_map_setEntry_self]
    obtain ⟨p, hp⟩ := Option.isSome_iff_exists.mp hf
    rw [hp]
    rfl
  · rw [if_neg hf, List.find?_append]
    have hm : m.find? (fun p => p.1 == k) = none := by
      cases h : m.find? (fun p => p.1 == k) with
      | none => rfl
      | some p => exact absurd (by rw [h]; rfl) hf
    rw [hm]
    have hk : (k == k) = true := beq_self_eq_true k
    simp [List.find?, hk]

theorem capStep_other {acc acc2 : PInfo × PInfo} {kv : String × CVal}
    {key : String} (hk : kv.1 ≠ key) (h : capStep acc kv = .ok acc2) :
    dictGet acc2.1 key = dictGet acc.1 key ∧
    dictGet acc2.2 key = dictGet acc.2 key := by
  have hne : key ≠ kv.1 := fun e => hk e.symm
  unfold capStep at h
  repeat' split at h
  all_goals cases h
  all_goals exact
    ⟨by first
        | rfl
        | exact dictGet_dictSet_ne _ _ _ _ hne,
     by first
        | rfl
        | exact dictGet_dictSet_ne _ _ _ _ hne⟩

theorem capLoop_other {key : String} :
    ∀ (caps : List (String × CVal)) (acc acc2 : PInfo × PInfo),
      (∀ kv ∈ caps, kv.1 ≠ key) → capLoop acc caps = .ok acc2 →
      dictGet acc2.1 key = dictGet acc.1 key ∧
      dictGet acc2.2 key = dictGet acc.2 key := by
  intro caps
  induction caps with
  | nil =>
    intro acc acc2 _ h
    cases h
    exact ⟨rfl, rfl⟩
  | cons kv rest ih =>
    intro acc acc2 hk h
    unfold capLoop at h
    cases hs : capStep acc kv with
    | error e =>
      rw [hs] at h
      exact absurd h (by simp)
    | ok accm =>
      rw [hs] at h
      simp only [] at h
      have h1 := capStep_other (hk kv (by simp)) hs
      have h2 := ih accm acc2 (fun kv2 hm => hk kv2 (by simp [hm])) h
      exact ⟨h2.1.trans h1.1, h2.2.trans h1.2⟩

theorem key_notin_of_nodup {key : String} {v : CVal}
    {kv : String × CVal} {rest : List (String × CVal)}
    (hm : (key, v) ∈ rest)
    (hnd : ((kv :: rest).map Prod.fst).Nodup) : kv.1 ≠ key := by
  intro he
  rw [List.map_cons, List.nodup_cons] at hnd
  exact hnd.1 (he ▸ (List.mem_map_of_mem Prod.fst hm))

theorem capLoop_key (allowed xs : List String) (key : String) :
    ∀ (caps : List (String × CVal)) (acc : PInfo × PInfo),
      (key, CVal.l xs) ∈ caps →
      ((caps.map Prod.fst).Nodup) →
      dictGet acc.1 key = some (.l allowed) →
      dictGet acc.2 key = none →
      ∀ res, capLoop acc caps = .ok res →
        if xs.dedup.all (fun x => allowed.contains x) then
          dictGet res.1 key = some (.l xs.dedup) ∧ dictGet res.2 key = none
        else
          dictGet res.2 key
            = some (.l (xs.dedup.filter (fun x => !allowed.contains x))) := by
  intro caps
  induction caps with
  | nil =>
    intro acc hmem
    exact absurd hmem (by simp)
  | cons kv rest ih =>
    intro acc hmem hnd h1 h2 res hloop
    unfold capLoop at hloop
    rcases List.mem_cons.mp hmem with heq | hmemrest
    · subst heq
      rw [show capStep acc (key, CVal.l xs)
            = (if xs.dedup.all (fun x => allowed.contains x) then
                 Except.ok (dictSet acc.1 key (.l xs.dedup), acc.2)
               else
                 Except.ok (acc.1,
                   dictSet acc.2 key
                     (.l (xs.dedup.filter (fun x => !allowed.contains x)))))
          from by
            unfold capStep cvalSet
            rw [h1]] at hloop
      have hrest : ∀ kv2 ∈ rest, kv2.1 ≠ key := by
        intro kv2 hkv2 he
        rw [List.map_cons, List.nodup_cons] at hnd
        exact hnd.1 (by
          have := List.mem_map_of_mem Prod.fst hkv2
          rw [he] at this
          simpa using this)
      by_cases hcond : xs.dedup.all (fun x => allowed.contains x) = true
      · rw [if_pos hcond] at hloop
        simp only [] at hloop
        have hpres := capLoop_other rest _ res hrest hloop
        rw [if_pos hcond]
        refine ⟨hpres.1.trans ?_, hpres.2.trans h2⟩
        exact dictGet_dictSet_self _ _ _
      · rw [if_neg hcond] at hloop
        simp only [] at hloop
        have hpres := capLoop_other rest _ res hrest hloop
        rw [if_neg hcond]
        exact hpres.2.trans (dictGet_dictSet_self _ _ _)
    · have hkne : kv.1 ≠ key := key_notin_of_nodup hmemrest hnd
      cases hs : capStep acc kv with
      | error e =>
        rw [hs] at hloop
        exact absurd hloop (by simp)
      | ok accm =>
        rw [hs] at hloop
        simp only [] at hloop
        have hstep := capStep_other hkne hs
        refine ih accm hmemrest ?_ (hstep.1.trans h1) (hstep.2.trans h2) res hloop
        rw [List.map_cons, List.nodup_cons] at hnd
        exact hnd.2

theorem capLoop_newkey (v : CVal) (key : String) :
    ∀ (caps : List (String × CVal)) (acc : PInfo × PInfo),
      (key, v) ∈ caps →
      ((caps.map Prod.fst).Nodup) →
      dictGet acc.1 key = none →
      dictGet acc.2 key = none →
      ∀ res, capLoop acc caps = .ok res →
        dictGet res.1 key = some v ∧ dictGet res.2 key = none := by
  intro caps
  induction caps with
  | nil =>
    intro acc hmem
    exact absurd hmem (by simp)
  | cons kv rest ih =>
    intro acc hmem hnd h1 h2 res hloop
    unfold capLoop at hloop
    rcases List.mem_cons.mp hmem with heq | hmemrest
    · subst heq
      rw [show capStep acc (key, v)
            = Except.ok (dictSet acc.1 key v, acc.2) from by
          unfold capStep
          rw [h1]] at hloop
      simp only [] at hloop
      have hrest : ∀ kv2 ∈ rest, kv2.1 ≠ key := by
        intro kv2 hkv2 he
        rw [List.map_cons, List.nodup_cons] at hnd
        exact hnd.1 (by
          have := List.mem_map_of_mem Prod.fst hkv2
          rw [he] at this
          simpa using this)
      have hpres := capLoop_other rest _ res hrest hloop
      exact ⟨hpres.1.trans (dictGet_dictSet_self _ _ _), hpres.2.trans h2⟩
    · have hkne : kv.1 ≠ key := key_notin_of_nodup hmemrest hnd
      cases hs : capStep acc kv with
      | error e =>
        rw [hs] at hloop
        exact absurd hloop (by simp)
      | ok accm =>
        rw [hs] at hloop
        simp only [] at hloop
        have hstep := capStep_other hkne hs
        refine ih accm hmemrest ?_ (hstep.1.trans h1) (hstep.2.trans h2) res hloop
        rw [List.map_cons, List.nodup_cons] at hnd
        exact hnd.2

theorem dictGet_endpoints_fold (eps : List (String × String)) (p : PInfo)
    (key : String) (h : ∀ ep ∈ eps, key ≠ ep.1 ++ "_endpoint") :
    dictGet (eps.foldl
        (fun m ep => dictSet m (ep.1 ++ "_endpoint") (.s ep.2)) p) key
      = dictGet p key := by
  induction eps generalizing p with
  | nil => rfl
  | cons ep rest ih =>
    rw [List.foldl_cons]
    rw [ih _ (fun e he => h e (by simp [he]))]
    exact dictGet_dictSet_ne _ _ _ _ (h ep (by simp))

theorem not_contains_iff (l : List String) (y : String) :
    ((!l.contains y) = true) ↔ y ∉ l := by
  cases hc : l.contains y with
  | true => simp [List.elem_iff.mp hc]
  | false =>
    simp only [Bool.not_false]
    simp only [true_iff]
    intro hm
    have h2 : l.contains y = true := List.elem_iff.mpr hm
    rw [h2] at hc
    exact absurd hc (by simp)

theorem dictGet_postProcess (p : PInfo) (jwks_uri : Option String)
    (endpoints : List (String × String)) (key : String)
    (hjw : key ≠ "jwks_uri")
    (hep : ∀ ep ∈ endpoints, key ≠ ep.1 ++ "_endpoint") :
    dictGet (postProcess p jwks_uri endpoints) key = dictGet p key := by
  unfold postProcess
  rw [dictGet_endpoints_fold _ _ _ hep]
  cases jwks_uri with
  | some j => exact dictGet_dictSet_ne _ _ _ _ hjw
  | none => rfl

/-- Claim C7: for a configured capability whose key has a list-valued
packaged default (and which no post-loop endpoint/jwks entry
overwrites): when every configured entry is in the supported superset,
any successfully built provider info advertises exactly the configured
set under that key; when some entry is outside, provider-info
construction never succeeds, and if it raises `ConfigurationError` the
carried `not_supported` names under that key exactly the configured
entries outside the superset. -/
theorem C7_capability_lists (packaged : PInfo) (caps : List (String × CVal))
    (jwks_uri : Option String) (endpoints : List (String × String))
    (key : String) (xs allowed : List String)
    (hmem : (key, CVal.l xs) ∈ caps)
    (hnd : (caps.map Prod.fst).Nodup)
    (hdef : dictGet packaged key = some (.l allowed))
    (hjw : key ≠ "jwks_uri")
    (hep : ∀ ep ∈ endpoints, key ≠ ep.1 ++ "_endpoint") :
    ((∀ x ∈ xs, x ∈ allowed) →
      ∀ p, create_providerinfo packaged caps jwks_uri endpoints = .ok p →
        ∃ ys, dictGet p key = some (.l ys) ∧ ∀ y, (y ∈ ys ↔ y ∈ xs))
    ∧ ((∃ x ∈ xs, x ∉ allowed) →
      (∀ p, create_providerinfo packaged caps jwks_uri endpoints ≠ .ok p)
      ∧ (∀ ns, create_providerinfo packaged caps jwks_uri endpoints
            = .configurationError ns →
          ∃ ys, dictGet ns key = some (.l ys) ∧
            ∀ y, (y ∈ ys ↔ y ∈ xs ∧ y ∉ allowed))) := by
  have hcond_iff : (xs.dedup.all (fun x => allowed.contains x) = true) ↔
      (∀ x ∈ xs, x ∈ allowed) := by
    simp [List.all_eq_true, List.elem_iff, List.mem_dedup]
  cases hloop : capLoop (packaged, []) caps with
  | error e =>
    have hres : create_providerinfo packaged caps jwks_uri endpoints
        = .typeError := by
      unfold create_providerinfo
      rw [hloop]
    constructor
    · intro _ p hp
      rw [hres] at hp
      exact absurd hp (by simp)
    · intro _
      constructor
      · intro p hp
        rw [hres] at hp
        exact absurd hp (by simp)
      · intro ns hns
        rw [hres] at hns
        exact absurd hns (by simp)
  | ok acc =>
    obtain ⟨pf, nsf⟩ := acc
    have hkey := capLoop_key allowed xs key caps (packaged, []) hmem hnd hdef
      rfl (pf, nsf) hloop
    by_cases hcond : xs.dedup.all (fun x => allowed.contains x) = true
    · rw [if_pos hcond] at hkey
      obtain ⟨hpf, hnsf⟩ := hkey
      constructor
      · intro _ p hp
        cases hemp : nsf.isEmpty with
        | false =>
          have hres : create_providerinfo packaged caps jwks_uri endpoints
              = .configurationError nsf := by
            unfold create_providerinfo
            rw [hloop]
            simp only [hemp, Bool.not_false, if_true]
          rw [hres] at hp
          exact absurd hp (by simp)
        | true =>
          have hres : create_providerinfo packaged caps jwks_uri endpoints
              = .ok (postProcess pf jwks_uri endpoints) := by
            unfold create_providerinfo
            rw [hloop]
            simp only [hemp, Bool.not_true, Bool.false_eq_true, if_false]
          rw [hres] at hp
          have hpe : p = postProcess pf jwks_uri endpoints := by
            cases hp
            rfl
          refine ⟨xs.dedup, ?_, fun y => List.mem_dedup⟩
          rw [hpe, dictGet_postProcess _ _ _ _ hjw hep]
          exact hpf
      · intro ⟨x, hx, hxa⟩
        exact absurd (hcond_iff.mp hcond x hx) hxa
    · rw [if_neg hcond] at hkey
      have hempf : nsf.isEmpty = false := by
        cases nsf with
        | nil => simp [dictGet] at hkey
        | cons a b => rfl
      have hres : create_providerinfo packaged caps jwks_uri endpoints
          = .configurationError nsf := by
        unfold create_providerinfo
        rw [hloop]
        simp only [hempf, Bool.not_false, if_true]
      constructor
      · intro hsub
        exact absurd (hcond_iff.mpr hsub) hcond
      · intro _
        constructor
        · intro p hp
          rw [hres] at hp
          exact absurd hp (by simp)
        · intro ns hns
          rw [hres] at hns
          have hnse : nsf = ns := by
            cases hns
            rfl
          subst hnse
          refine ⟨xs.dedup.filter (fun x => !allowed.contains x), hkey, ?_⟩
          intro y
          simp [List.mem_filter, List.mem_dedup, not_contains_iff]

/-- Claim C7 (witness): one configured entry (`ws`) outside the
supported response modes — construction fails and `not_supported` names
exactly that entry. -/
theorem C7_capability_lists_witness :
    ∃ ys, dictGet [("response_modes_supported", CVal.l ["ws"])]
        "response_modes_supported" = some (.l ys) ∧
      ∀ y, (y ∈ ys ↔
        y ∈ ["query", "ws"] ∧ y ∉ ["query", "fragment", "form_post"]) := by
  have h := ((C7_capability_lists
      [("response_modes_supported",
        CVal.l ["query", "fragment", "form_post"])]
      [("response_modes_supported", CVal.l ["query", "ws"])]
      none [] "response_modes_supported" ["query", "ws"]
      ["query", "fragment", "form_post"]
      (by decide) (by decide) (by decide) (by decide) (by simp)).2
      (by decide)).2
  exact h [("response_modes_supported", CVal.l ["ws"])] (by decide)

/-- Claim C10: a configured capability whose key is absent from the
packaged defaults (and untouched by the endpoint/jwks post-processing)
is copied verbatim into any successfully built provider info, with no
validation of any kind — in particular it never contributes to
`not_supported`, so it alone never causes `ConfigurationError`. -/
theorem C10_unknown_key_verbatim (packaged : PInfo)
    (caps : List (String × CVal)) (jwks_uri : Option String)
    (endpoints : List (String × String)) (key : String) (v : CVal)
    (hmem : (key, v) ∈ caps)
    (hnd : (caps.map Prod.fst).Nodup)
    (hdef : dictGet packaged key = none)
    (hjw : key ≠ "jwks_uri")
    (hep : ∀ ep ∈ endpoints, key ≠ ep.1 ++ "_endpoint") :
    (∀ p, create_providerinfo packaged caps jwks_uri endpoints = .ok p →
      dictGet p key = some v)
    ∧ (∀ ns, create_providerinfo packaged caps jwks_uri endpoints
          = .configurationError ns →
        dictGet ns key = none) := by
  cases hloop : capLoop (packaged, []) caps with
  | error e =>
    have hres : create_providerinfo packaged caps jwks_uri endpoints
        = .typeError := by
      unfold create_providerinfo
      rw [hloop]
    constructor
    · intro p hp
      rw [hres] at hp
      exact absurd hp (by simp)
    · intro ns hns
      rw [hres] at hns
      exact absurd hns (by simp)
  | ok acc =>
    obtain ⟨pf, nsf⟩ := acc
    have hkey := capLoop_newkey v key caps (packaged, []) hmem hnd hdef rfl
      (pf, nsf) hloop
    constructor
    · intro p hp
      cases hemp : nsf.isEmpty with
      | false =>
        have hres : create_providerinfo packaged caps jwks_uri endpoints
            = .configurationError nsf := by
          unfold create_providerinfo
          rw [hloop]
          simp only [hemp, Bool.not_false, if_true]
        rw [hres] at hp
        exact absurd hp (by simp)
      | true =>
        have hres : create_providerinfo packaged caps jwks_uri endpoints
            = .ok (postProcess pf jwks_uri endpoints) := by
          unfold create_providerinfo
          rw [hloop]
          simp only [hemp, Bool.not_true, Bool.false_eq_true, if_false]
        rw [hres] at hp
        have hpe : p = postProcess pf jwks_uri endpoints := by
          cases hp
          rfl
        rw [hpe, dictGet_postProcess _ _ _ _ hjw hep]
        exact hkey.1
    · intro ns hns
      cases hemp : nsf.isEmpty with
      | false =>
        have hres : create_providerinfo packaged caps jwks_uri endpoints
            = .configurationError nsf := by
          unfold create_providerinfo
          rw [hloop]
          simp only [hemp, Bool.not_false, if_true]
        rw [hres] at hns
        have hnse : nsf = ns := by
          cases hns
          rfl
        subst hnse
        exact hkey.2
      | true =>
        have hres : create_providerinfo packaged caps jwks_uri endpoints
            = .ok (postProcess pf jwks_uri endpoints) := by
          unfold create_providerinfo
          rw [hloop]
          simp only [hemp, Bool.not_true, Bool.false_eq_true, if_false]
        rw [hres] at hns
        exact absurd hns (by simp)

/-- Claim C10 (witness): an extension key unknown to the defaults, with
a bool value, copied verbatim. -/
theorem C10_unknown_key_verbatim_witness :
    dictGet [("acme_ext", CVal.b true)] "acme_ext" = some (.b true) := by
  exact (C10_unknown_key_verbatim [] [("acme_ext", CVal.b true)] none []
    "acme_ext" (.b true) (by decide) (by decide) rfl (by decide)
    (by simp)).1 [("acme_ext", CVal.b true)] (by decide)

end Oicsrv
